import Mathlib

/-!
# Shallow embedding of the financial-risk-assessor decision engine

This file embeds, in Lean, the pure computational core of the
`financial_risk_assessor` repository:

* `calculate_risk_score`, `run_portfolio_analysis`, `categorize_risk_level`
  from `subagents/analyze_risk_tolerance/tools.py`;
* `suggest_asset_allocation`, `get_comprehensive_investment_recommendations`,
  `determine_time_horizon`, `get_investment_rationale`, and the
  `next_steps` construction of `generate_risk_report` from
  `subagents/generate_recommendations/tools.py`.

Modelling conventions:

* Python numbers (ints and floats) are modelled as exact rationals `ℚ`;
  `int(x)` is truncation toward zero (`pyInt`) and `round(x, n)` is
  round half to even at `n` decimal digits (`pyRound`, `round2`,
  `round1`), which is the Python rounding rule read over exact
  rationals.
* A Python function that can raise an exception is modelled as returning
  `Option` (with `none` for the raised exception).
* Dictionary reads with `.get(k, d)` are modelled with `Option.getD`;
  a dictionary used as an accumulating map with insertion order is
  modelled as an association list (`updAdd`, `alookup`).
-/

/-- Python `int(x)` on a rational: truncation toward zero. -/
def pyInt (q : ℚ) : ℤ :=
  if q < 0 then -((-q).floor) else q.floor

/-- Python `round(x)` to an integer on a rational: round half to even. -/
def pyRound (q : ℚ) : ℤ :=
  let f := q.floor
  let r := q - f
  if r < 1/2 then f
  else if 1/2 < r then f + 1
  else if f % 2 = 0 then f else f + 1

/-- Python `round(x, 2)` on a rational. -/
def round2 (q : ℚ) : ℚ := (pyRound (q * 100) : ℚ) / 100

/-- Python `round(x, 1)` on a rational. -/
def round1 (q : ℚ) : ℚ := (pyRound (q * 10) : ℚ) / 10

/-- Substring test on character lists: `needle` occurs somewhere in `hay`. -/
def listContains (needle : List Char) : List Char → Bool
  | [] => needle.isEmpty
  | c :: rest => needle.isPrefixOf (c :: rest) || listContains needle rest

/-- Python `needle in hay` on strings. -/
def strContains (needle hay : String) : Bool :=
  listContains needle.toList hay.toList

/-! ## Data model -/

/-- The user profile, as collected by `collect_user_profile` and read by
the engine stages from shared state.  The engine reads each field with a
default (`age` 0, amounts 0, `risk_appetite` "moderate"), so quantifying
over all field values also covers the absent-key defaults. -/
structure Profile where
  age : ℤ
  annual_income : ℚ
  monthly_expenses : ℚ
  total_savings : ℚ
  financial_goals : String
  risk_appetite : String
deriving DecidableEq, Repr

/-- The dictionary returned by `calculate_risk_score`
(`analyze_risk_tolerance/tools.py`, lines 79-90), with the
`contributing_factors` sub-dictionary flattened into fields. -/
structure RiskScoreResult where
  risk_score : ℤ
  risk_category : String
  self_described_risk : String
  age_factor : ℤ
  income_factor : ℤ
  savings_factor : ℤ
deriving DecidableEq, Repr

/-- Score-to-category banding used by `calculate_risk_score` (lines 81-83)
and `categorize_risk_level` (lines 201-206). -/
def categoryOfScore (s : ℤ) : String :=
  if s ≤ 3 then "Conservative"
  else if s ≤ 6 then "Moderate"
  else "Aggressive"

/-- Base score from the self-described risk appetite
(`analyze_risk_tolerance/tools.py`, lines 36-40). -/
def base_score_of (p : Profile) : ℤ :=
  let self := p.risk_appetite.toLower
  if self = "conservative" then 2
  else if self = "moderate" then 5
  else if self = "aggressive" then 8
  else 5

/-- Embeds `calculate_risk_score` (`analyze_risk_tolerance/tools.py`,
lines 11-90): base score from appetite, age factor, income factor
`min(2, max(0, int(monthly_income/expenses - 2)))` (ratio 1 when
expenses are not positive), savings factor from months of expenses
covered, final score clamped to `[1, 10]`. -/
def calculate_risk_score (p : Profile) : RiskScoreResult :=
  let self := p.risk_appetite.toLower
  let base := base_score_of p
  let age_factor : ℤ :=
    if p.age < 30 then 2
    else if p.age < 40 then 1
    else if p.age < 50 then 0
    else -1
  let monthly_income := p.annual_income / 12
  let income_expense_ratio :=
    if 0 < p.monthly_expenses then monthly_income / p.monthly_expenses else 1
  let income_factor : ℤ := min 2 (max 0 (pyInt (income_expense_ratio - 2)))
  let savings_months :=
    if 0 < p.monthly_expenses then p.total_savings / p.monthly_expenses else 0
  let savings_factor : ℤ :=
    if 12 < savings_months then 2
    else if 6 < savings_months then 1
    else 0
  let final_score := max 1 (min 10 (base + age_factor + income_factor + savings_factor))
  { risk_score := final_score
    risk_category := categoryOfScore final_score
    self_described_risk := self
    age_factor := age_factor
    income_factor := income_factor
    savings_factor := savings_factor }

/-- The Scenario A profile of the spec: conservative appetite, age 25,
annual income 600000, monthly expenses 25000, savings 300000. -/
def scenarioAProfile : Profile :=
  { age := 25
    annual_income := 600000
    monthly_expenses := 25000
    total_savings := 300000
    financial_goals := "retirement planning and long-term wealth creation"
    risk_appetite := "conservative" }

/-! ## Portfolio Analyzer

The function `run_portfolio_analysis` (`analyze_risk_tolerance/tools.py`,
lines 93-181) iterates over the `investments` list from shared state.  An
investment is either a dictionary (possibly missing keys) or some other
Python value.  The values found under an `amount` key are passed to
`float(...)`, which raises for non-numeric values; `AmtVal.mal` stands
for any such non-convertible value (`None`, a non-numeric string, a
list, ...), and `AmtVal.num q` for a value `float` converts to the
rational `q`. -/

inductive AmtVal where
  | num (q : ℚ)
  | mal
deriving DecidableEq, Repr

/-- Python `float(v)`: `none` models the raised `ValueError`/`TypeError`. -/
def floatOf : AmtVal → Option ℚ
  | .num q => some q
  | .mal => none

/-- The `details` sub-dictionary of an investment as built by
`record_asset_details` (`collect_investment_data/tools.py`, lines
92-101): a `name`, an `amount`, and a `current_value` that that
collector defaults to `amount` when not supplied.  Each field is `none`
when the key is absent.  The remaining detail keys (`expected_returns`,
`purchase_date`, `tenure`, `risk_category`, `additional_notes`) are
never read by the engine and are omitted. -/
structure InvDetails where
  name : Option String
  amount : Option AmtVal
  current_value : Option ℚ
deriving DecidableEq, Repr

/-- An entry of the `investments` list: either a dictionary with the keys
`run_portfolio_analysis` probes (each `none` when absent), or a value of
unexpected (non-dict) shape. -/
inductive Investment where
  | obj (asset_type : Option String) (details : Option InvDetails)
        (amount : Option AmtVal)
  | nonDict
deriving DecidableEq, Repr

/-- Asset-type resolution of `run_portfolio_analysis` (lines 122-144):
top-level `asset_type` if present, else the `details` `name` (default
"Unknown"), else "Unknown"; non-dict entries get "Unknown". -/
def resolvedType : Investment → String
  | .nonDict => "Unknown"
  | .obj t d _ =>
    match t with
    | some s => s
    | none =>
      match d with
      | some det => det.name.getD "Unknown"
      | none => "Unknown"

/-- Models `float(inv.get("amount", 0))`: an absent key converts `0`. -/
def topAmount : Option AmtVal → Option ℚ
  | some v => floatOf v
  | none => some 0

/-- Amount resolution of `run_portfolio_analysis` (lines 135-144):
`float(details["amount"])` when `details` is present and has an `amount`
key, else `float(inv.get("amount", 0))`; non-dict entries contribute 0.
Here `none` models the exception propagating out of `float`. -/
def resolvedAmount : Investment → Option ℚ
  | .nonDict => some 0
  | .obj _ d a =>
    match d with
    | some det =>
      match det.amount with
      | some v => floatOf v
      | none => topAmount a
    | none => topAmount a

/-- The loop of lines 121-148 read as the list of (type, amount) pairs it
accumulates; `none` when `float` raises on some entry (the exception
aborts the whole analysis). -/
def resolvePairs : List Investment → Option (List (String × ℚ))
  | [] => some []
  | i :: rest =>
    match resolvedAmount i with
    | none => none
    | some q =>
      match resolvePairs rest with
      | none => none
      | some ps => some ((resolvedType i, q) :: ps)

/-- Association-list lookup, modelling Python `d.get(k)` on a dict held
as a key-ordered list. -/
def alookup : List (String × ℚ) → String → Option ℚ
  | [], _ => none
  | (k, v) :: m, key => if k = key then some v else alookup m key

/-- Python `d.get(k, 0)`. -/
def valD (m : List (String × ℚ)) (k : String) : ℚ := (alookup m k).getD 0

/-- Python `d[k] = d.get(k, 0) + q` on an insertion-ordered dict. -/
def updAdd (m : List (String × ℚ)) (k : String) (q : ℚ) : List (String × ℚ) :=
  match m with
  | [] => [(k, q)]
  | (k', v) :: rest =>
    if k' = k then (k', v + q) :: rest else (k', v) :: updAdd rest k q

/-- Python `d[k] = d.get(k, 0) + 1` for the `asset_counts` dict. -/
def updInc (m : List (String × ℕ)) (k : String) : List (String × ℕ) :=
  match m with
  | [] => [(k, 1)]
  | (k', v) :: rest =>
    if k' = k then (k', v + 1) :: rest else (k', v) :: updInc rest k

/-- The running `total_value` of the loop: sum of the resolved amounts. -/
def sumAmts : List (String × ℚ) → ℚ
  | [] => 0
  | p :: rest => p.2 + sumAmts rest

/-- Sum of the amounts in `rs` whose resolved type is `t`. -/
def sumFor (t : String) : List (String × ℚ) → ℚ
  | [] => 0
  | p :: rest => (if p.1 = t then p.2 else 0) + sumFor t rest

/-- The `portfolio_analysis` dictionary stored in state (lines 168-174). -/
structure PortfolioAnalysis where
  diversity_score : ℕ
  asset_count : ℕ
  unique_asset_types : ℕ
  asset_allocation : List (String × ℚ)
  risk_concentration : String
deriving DecidableEq, Repr

/-- Lines 150-174 of `run_portfolio_analysis`, applied to the resolved
(type, amount) pairs of a non-empty list of `n` investments: percentage
allocation (`round(v/total*100, 2)`, empty when the total is not
positive), diversity score `min(10, 2 * unique types)`, and the
concentration string listing the types above 50%.  The single Python
loop updates `asset_counts` and `asset_values` independently, modelled
here as two folds over the same pairs. -/
def analysisOf (n : ℕ) (rs : List (String × ℚ)) : PortfolioAnalysis :=
  let values := rs.foldl (fun m p => updAdd m p.1 p.2) []
  let counts := rs.foldl (fun m p => updInc m p.1) []
  let total := sumAmts rs
  let alloc :=
    if 0 < total then values.map (fun kv => (kv.1, round2 (kv.2 / total * 100)))
    else []
  let highs := (alloc.filter (fun kv => 50 < kv.2)).map Prod.fst
  let conc :=
    if highs.isEmpty then "balanced"
    else "concentrated in " ++ String.intercalate ", " highs
  { diversity_score := min 10 (2 * counts.length)
    asset_count := n
    unique_asset_types := counts.length
    asset_allocation := alloc
    risk_concentration := conc }

/-- Result of `run_portfolio_analysis`: the early-return "no_data"
dictionary for an empty list (status `no_data`, diversity 0, empty
allocation, concentration "unknown"), or the computed analysis. -/
inductive PAResult where
  | noData
  | ok (a : PortfolioAnalysis)
deriving DecidableEq, Repr

/-- The `diversity_score` field of either result shape. -/
def diversityOf : PAResult → ℕ
  | .noData => 0
  | .ok a => a.diversity_score

/-- Embeds `run_portfolio_analysis` (lines 93-181); `none` models an
uncaught exception from `float(...)` on a malformed amount value. -/
def run_portfolio_analysis (invs : List Investment) : Option PAResult :=
  if invs.isEmpty then some .noData
  else
    match resolvePairs invs with
    | none => none
    | some rs => some (.ok (analysisOf invs.length rs))

/-- An entry whose top-level `amount` holds a value `float` rejects. -/
def malformedAmountInv : Investment :=
  .obj (some "Stocks") none (some .mal)

/-- An entry with no `asset_type` key whose `details` carry a name. -/
def detailsNamedInv : Investment :=
  .obj none (some { name := some "Gold", amount := some (.num 5), current_value := none }) none

/-- Replaces the `current_value` entry of the `details` of an
investment, leaving everything the analyzer reads untouched. -/
def setCV : Investment → Option ℚ → Investment
  | .obj t d a, cv => .obj t (d.map fun det => { det with current_value := cv }) a
  | .nonDict, _ => .nonDict

/-- First investment of the C3 counterexample: amount 50, current value
150 (the two differ). -/
def cvDiffersA : Investment :=
  .obj (some "A") (some { name := some "a", amount := some (.num 50), current_value := some 150 }) none

/-- Second investment of the C3 counterexample: amount 50, current value
50. -/
def cvDiffersB : Investment :=
  .obj (some "B") (some { name := some "b", amount := some (.num 50), current_value := some 50 }) none

/-! ## Risk Categorizer -/

/-- The `risk_category` dictionary produced by `categorize_risk_level`
(`analyze_risk_tolerance/tools.py`, lines 229-233). -/
structure RiskCategory where
  category : String
  base_category : String
  adjustment_factors : List String
deriving DecidableEq, Repr

/-- The slice of the shared session state the risk-analysis stages read
and write (keys `risk_score`, `portfolio_analysis`, `risk_category`);
`none` models an absent key. -/
structure EngineState where
  risk_score : Option ℤ
  portfolio_analysis : Option PortfolioAnalysis
  risk_category : Option RiskCategory
deriving DecidableEq, Repr

/-- Embeds `categorize_risk_level` (`analyze_risk_tolerance/tools.py`,
lines 184-237): reads `risk_score` (default 5) and `portfolio_analysis`
(defaults: diversity 5, concentration "unknown") from state, derives
the base category from the score bands, applies the two downgrade
checks, writes the result back to state under `risk_category`, and
returns it. -/
def categorize_risk_level (st : EngineState) : EngineState × RiskCategory :=
  let risk_score := st.risk_score.getD 5
  let base_category := categoryOfScore risk_score
  let diversity_score := (st.portfolio_analysis.map (fun a => a.diversity_score)).getD 5
  let risk_concentration := (st.portfolio_analysis.map (fun a => a.risk_concentration)).getD "unknown"
  let fs1 : List String :=
    if diversity_score < 4 ∧ base_category ≠ "Conservative" then ["low portfolio diversity"] else []
  let cat1 :=
    if diversity_score < 4 ∧ base_category ≠ "Conservative" ∧ base_category = "Aggressive" then
      "Moderate"
    else base_category
  let fs :=
    fs1 ++ (if strContains "concentrated" risk_concentration ∧ base_category = "Aggressive" then
      ["high concentration risk"] else [])
  let final_category :=
    if strContains "concentrated" risk_concentration ∧ base_category = "Aggressive" then "Moderate"
    else cat1
  let rc : RiskCategory :=
    { category := final_category, base_category := base_category, adjustment_factors := fs }
  ({ st with risk_category := some rc }, rc)

/-! ## Allocation Recommender -/

/-- One row of the base-allocation table of `suggest_asset_allocation`
(`generate_recommendations/tools.py`, lines 31-50). -/
structure Alloc where
  equities : ℚ
  fixed_income : ℚ
  cash : ℚ
  alternative_investments : ℚ
deriving DecidableEq, Repr

/-- The "Conservative" row of the base-allocation table. -/
def conservativeAlloc : Alloc :=
  { equities := 30, fixed_income := 50, cash := 15, alternative_investments := 5 }

/-- The "Moderate" row of the base-allocation table. -/
def moderateAlloc : Alloc :=
  { equities := 50, fixed_income := 35, cash := 10, alternative_investments := 5 }

/-- The "Aggressive" row of the base-allocation table. -/
def aggressiveAlloc : Alloc :=
  { equities := 70, fixed_income := 20, cash := 5, alternative_investments := 5 }

/-- Lookup into the `allocations` dict by risk category; `none` for a
key outside the three-row table. -/
def baseAllocLookup (risk_category : String) : Option Alloc :=
  if risk_category = "Conservative" then some conservativeAlloc
  else if risk_category = "Moderate" then some moderateAlloc
  else if risk_category = "Aggressive" then some aggressiveAlloc
  else none

/-- The age adjustment of `suggest_asset_allocation` (lines 58-69):
above 60, shift `min(15, Equities*0.2)` out of equities, 70% into fixed
income and 30% into cash; under 30, shift `min(10, FixedIncome*0.2)`
from fixed income into equities; otherwise unchanged. -/
def ageAdjust (base : Alloc) (age : ℤ) : Alloc :=
  if 60 < age then
    let equity_shift := min 15 (base.equities * (2/10))
    { base with
      equities := base.equities - equity_shift
      fixed_income := base.fixed_income + equity_shift * (7/10)
      cash := base.cash + equity_shift * (3/10) }
  else if age < 30 then
    let fixed_income_shift := min 10 (base.fixed_income * (2/10))
    { base with
      fixed_income := base.fixed_income - fixed_income_shift
      equities := base.equities + fixed_income_shift }
  else base

/-- The `equity_breakdown` dictionary of `suggest_asset_allocation`
(lines 71-95), with the four style buckets as fields. -/
structure EquityBreakdown where
  large_cap : ℚ
  mid_cap : ℚ
  small_cap : ℚ
  international : ℚ
deriving DecidableEq, Repr

/-- The equity style split of lines 75-95: fixed fractions per risk
category applied to the adjusted equity total, rounded to 1 decimal.
Every category other than "Conservative" and "Moderate" takes the
`else` (Aggressive) branch, exactly as the Python if/elif/else does. -/
def equityBreakdownOf (risk_category : String) (total_equity : ℚ) : EquityBreakdown :=
  if risk_category = "Conservative" then
    { large_cap := round1 (total_equity * (7/10))
      mid_cap := round1 (total_equity * (2/10))
      small_cap := round1 (total_equity * 0)
      international := round1 (total_equity * (1/10)) }
  else if risk_category = "Moderate" then
    { large_cap := round1 (total_equity * (5/10))
      mid_cap := round1 (total_equity * (25/100))
      small_cap := round1 (total_equity * (10/100))
      international := round1 (total_equity * (15/100)) }
  else
    { large_cap := round1 (total_equity * (40/100))
      mid_cap := round1 (total_equity * (25/100))
      small_cap := round1 (total_equity * (15/100))
      international := round1 (total_equity * (20/100)) }

/-- Embeds `suggest_asset_allocation` (`generate_recommendations/tools.py`,
lines 11-109): base allocation looked up with
`allocations.get(risk_category, allocations["Moderate"])` (silent
Moderate default), age adjustment, equity breakdown.  Returns the pair
(`main_allocation`, `equity_breakdown`) stored in state. -/
def suggest_asset_allocation (risk_category : String) (age : ℤ) : Alloc × EquityBreakdown :=
  let base := (baseAllocLookup risk_category).getD moderateAlloc
  let adjusted := ageAdjust base age
  (adjusted, equityBreakdownOf risk_category adjusted.equities)

/-- Sum of the four `main_allocation` buckets. -/
def allocSum (a : Alloc) : ℚ :=
  a.equities + a.fixed_income + a.cash + a.alternative_investments

/-! ## Horizon & Liquidity Classifier -/

/-- Short-term keywords of `determine_time_horizon`
(`generate_recommendations/tools.py`, line 572). -/
def shortKeywords : List String :=
  ["emergency", "travel", "wedding", "car", "1 year", "2 year", "short"]

/-- Long-term keywords of `determine_time_horizon` (line 576). -/
def longKeywords : List String :=
  ["retirement", "child education", "property", "house", "long", "10 year", "15 year"]

/-- Embeds `determine_time_horizon` (lines 567-583): case-insensitive
keyword match on the goals text, short-term keywords first, then
long-term, then the age-based/default medium bucket (both of which
return "3-7 Years"). -/
def determine_time_horizon (goals : String) (age : ℤ) : String :=
  if shortKeywords.any (fun k => strContains k goals.toLower) then "< 3 Years"
  else if longKeywords.any (fun k => strContains k goals.toLower) then "7+ Years"
  else if 55 < age then "3-7 Years"
  else "3-7 Years"

/-! ## Decision Matrix Engine -/

/-- One recommended product of a decision-matrix cell: its name and
percentage allocation.  The prose `description` and the static
fund sub-lists attached by `get_specific_fund_recommendations` are
narrative payload never inspected by any computation and are omitted. -/
structure MatrixProduct where
  name : String
  allocation : ℚ
deriving DecidableEq, Repr

/-- One cell of `recommendations_matrix`: the primary strategy label and
the ordered product list. -/
structure MatrixCell where
  primary : String
  products : List MatrixProduct
deriving DecidableEq, Repr

/-- The lookup `recommendations_matrix[risk_category][time_horizon][lumpsum_key]`
of `get_comprehensive_investment_recommendations`
(`generate_recommendations/tools.py`, lines 357-540), with the full
3 x 3 x 2 table transcribed; `none` models the `KeyError` raised for a
category or horizon outside the closed key sets. -/
def matrixCell (risk_category time_horizon : String) (lumpsum_available : Bool) :
    Option MatrixCell :=
  if risk_category = "Conservative" then
    if time_horizon = "< 3 Years" then
      some (if lumpsum_available then
        { primary := "FD (Lumpsum)"
          products := [⟨"Fixed Deposits", 70⟩, ⟨"Liquid Funds", 20⟩,
            ⟨"Ultra Short-term Funds", 10⟩] }
      else
        { primary := "FD (SIP if possible)"
          products := [⟨"Monthly FD SIP", 60⟩, ⟨"Liquid Fund SIP", 30⟩,
            ⟨"Savings Account", 10⟩] })
    else if time_horizon = "3-7 Years" then
      some (if lumpsum_available then
        { primary := "FD + Short-term Debt MF (Lumpsum + SIP)"
          products := [⟨"Fixed Deposits", 40⟩, ⟨"Short-term Debt Mutual Funds", 35⟩,
            ⟨"Conservative Hybrid Funds", 20⟩, ⟨"Liquid Funds", 5⟩] }
      else
        { primary := "SIP in Short-term Debt / Conservative Hybrid MF"
          products := [⟨"Short-term Debt Fund SIP", 50⟩, ⟨"Conservative Hybrid Fund SIP", 30⟩,
            ⟨"Monthly FD", 20⟩] })
    else if time_horizon = "7+ Years" then
      some (if lumpsum_available then
        { primary := "FD + Conservative Hybrid MF (Lumpsum + SIP)"
          products := [⟨"Conservative Hybrid Mutual Funds", 45⟩, ⟨"ELSS (Tax Saving)", 25⟩,
            ⟨"Fixed Deposits", 20⟩, ⟨"PPF/EPF", 10⟩] }
      else
        { primary := "SIP in Debt Hybrid / Conservative Hybrid MF"
          products := [⟨"Conservative Hybrid Fund SIP", 50⟩, ⟨"ELSS SIP", 30⟩, ⟨"PPF", 20⟩] })
    else none
  else if risk_category = "Moderate" then
    if time_horizon = "< 3 Years" then
      some (if lumpsum_available then
        { primary := "FD + Arbitrage / Low Duration Debt MF (Lumpsum)"
          products := [⟨"Fixed Deposits", 50⟩, ⟨"Arbitrage Funds", 30⟩,
            ⟨"Low Duration Debt Funds", 15⟩, ⟨"Liquid Funds", 5⟩] }
      else
        { primary := "FD only, avoid equity SIP <3yrs"
          products := [⟨"Monthly FD", 70⟩, ⟨"Ultra Short-term Fund SIP", 25⟩,
            ⟨"Liquid Fund", 5⟩] })
    else if time_horizon = "3-7 Years" then
      some (if lumpsum_available then
        { primary := "Balanced Advantage MF + ELSS + FD (Lumpsum + SIP)"
          products := [⟨"Balanced Advantage Funds", 40⟩, ⟨"ELSS Mutual Funds", 25⟩,
            ⟨"Fixed Deposits", 20⟩, ⟨"Medium Duration Debt Funds", 15⟩] }
      else
        { primary := "SIP in Balanced Advantage, Hybrid MF + ELSS"
          products := [⟨"Balanced Advantage Fund SIP", 45⟩, ⟨"ELSS SIP", 30⟩,
            ⟨"Hybrid Fund SIP", 25⟩] })
    else if time_horizon = "7+ Years" then
      some (if lumpsum_available then
        { primary := "Index / Large Cap MF + ELSS (Lumpsum + SIP)"
          products := [⟨"Index Funds", 35⟩, ⟨"Large Cap Mutual Funds", 30⟩, ⟨"ELSS", 20⟩,
            ⟨"International Funds", 10⟩, ⟨"PPF/ELSS", 5⟩] }
      else
        { primary := "SIP in Index / Large Cap MF + ELSS"
          products := [⟨"Index Fund SIP", 40⟩, ⟨"Large Cap Fund SIP", 30⟩, ⟨"ELSS SIP", 25⟩,
            ⟨"PPF", 5⟩] })
    else none
  else if risk_category = "Aggressive" then
    if time_horizon = "< 3 Years" then
      some (if lumpsum_available then
        { primary := "FD (Emergency Lumpsum)"
          products := [⟨"Fixed Deposits", 80⟩, ⟨"Liquid Plus Funds", 15⟩,
            ⟨"Overnight Funds", 5⟩] }
      else
        { primary := "FD (SIP)"
          products := [⟨"Monthly FD", 85⟩, ⟨"Liquid Fund SIP", 15⟩] })
    else if time_horizon = "3-7 Years" then
      some (if lumpsum_available then
        { primary := "Multi-cap / Flexi-cap MF + ELSS (Lumpsum + SIP)"
          products := [⟨"Flexi-cap Mutual Funds", 40⟩, ⟨"Multi-cap Mutual Funds", 30⟩,
            ⟨"ELSS", 20⟩, ⟨"Mid & Small Cap Funds", 10⟩] }
      else
        { primary := "SIP in Flexi-cap / Multi-cap MF + ELSS"
          products := [⟨"Flexi-cap Fund SIP", 45⟩, ⟨"Multi-cap Fund SIP", 30⟩,
            ⟨"ELSS SIP", 25⟩] })
    else if time_horizon = "7+ Years" then
      some (if lumpsum_available then
        { primary := "Equity MF + ELSS (Lumpsum + SIP)"
          products := [⟨"Large Cap Equity Funds", 30⟩, ⟨"Mid Cap Equity Funds", 25⟩,
            ⟨"Small Cap Equity Funds", 20⟩, ⟨"ELSS", 15⟩, ⟨"International Equity Funds", 10⟩] }
      else
        { primary := "SIP in Equity MF + ELSS"
          products := [⟨"Large Cap Equity SIP", 35⟩, ⟨"Mid Cap Equity SIP", 30⟩,
            ⟨"ELSS SIP", 20⟩, ⟨"Small Cap SIP", 15⟩] })
    else none
  else none

/-- The `rationale_base` dict of `get_investment_rationale` (lines
589-593); `none` models the `KeyError` for an unknown category. -/
def rationaleBase (risk_category : String) : Option String :=
  if risk_category = "Conservative" then some "focuses on capital preservation with minimal risk"
  else if risk_category = "Moderate" then some "balances growth potential with reasonable safety"
  else if risk_category = "Aggressive" then
    some "prioritizes maximum growth potential with higher risk tolerance"
  else none

/-- The `time_rationale` dict of `get_investment_rationale` (lines
595-599). -/
def timeRationale (time_horizon : String) : Option String :=
  if time_horizon = "< 3 Years" then
    some "short time horizon requires capital protection and liquidity"
  else if time_horizon = "3-7 Years" then
    some "medium time horizon allows for balanced growth with some stability"
  else if time_horizon = "7+ Years" then
    some "long time horizon enables equity-focused wealth creation"
  else none

/-- The `lumpsum_rationale` dict of `get_investment_rationale` (lines
601-604). -/
def lumpsumRationale (lumpsum_available : Bool) : String :=
  if lumpsum_available then
    "lumpsum availability enables immediate market participation and SIP for rupee cost averaging"
  else
    "systematic investment through SIPs provides disciplined wealth creation and rupee cost averaging"

/-- Embeds `get_investment_rationale` (lines 586-606): the template
sentence assembled from the three phrase tables. -/
def get_investment_rationale (risk_category time_horizon : String) (lumpsum_available : Bool) :
    Option String :=
  match rationaleBase risk_category, timeRationale time_horizon with
  | some rb, some tr =>
    some ("This " ++ risk_category.toLower ++ " strategy " ++ rb ++ " while your " ++ tr ++
      ". The " ++ lumpsumRationale lumpsum_available ++ ".")
  | _, _ => none

/-- The `comprehensive_recommendations` dictionary stored in state by
`get_comprehensive_investment_recommendations` (lines 548-559), minus
the constant `status` field. -/
structure CompRecs where
  risk_category : String
  time_horizon : String
  lumpsum_available : Bool
  emergency_fund_needed : ℚ
  suggested_sip_amount : ℚ
  suggested_lumpsum_amount : ℚ
  primary_strategy : String
  recommended_products : List MatrixProduct
  investment_rationale : String
deriving DecidableEq, Repr

/-- Embeds `get_comprehensive_investment_recommendations`
(`generate_recommendations/tools.py`, lines 326-564).  The local
variables of the Python function are inlined: monthly income is
`annual_income/12` when `annual_income` is truthy (nonzero) else 0, the
emergency fund is `monthly_expenses * 6`, lumpsum availability is
`total_savings > emergency_fund_needed`, the SIP suggestion is 12.5% of
monthly income (flat 5000 when that income is not positive), and the
lumpsum suggestion is `max(0, total_savings - emergency_fund) * 0.7`
when lumpsum is available else 0.  `none` models the `KeyError` from
the matrix (or phrase-table) lookup on an out-of-enum category or
horizon. -/
def get_comprehensive_investment_recommendations (profile : Profile) (risk_category : String) :
    Option CompRecs :=
  match matrixCell risk_category (determine_time_horizon profile.financial_goals profile.age)
      (decide (profile.monthly_expenses * 6 < profile.total_savings)),
    get_investment_rationale risk_category
      (determine_time_horizon profile.financial_goals profile.age)
      (decide (profile.monthly_expenses * 6 < profile.total_savings)) with
  | some cell, some rationale =>
    some
      { risk_category := risk_category
        time_horizon := determine_time_horizon profile.financial_goals profile.age
        lumpsum_available := decide (profile.monthly_expenses * 6 < profile.total_savings)
        emergency_fund_needed := profile.monthly_expenses * 6
        suggested_sip_amount :=
          if 0 < (if profile.annual_income = 0 then 0 else profile.annual_income / 12) then
            (if profile.annual_income = 0 then 0 else profile.annual_income / 12) * (125/1000)
          else 5000
        suggested_lumpsum_amount :=
          if profile.monthly_expenses * 6 < profile.total_savings then
            max 0 (profile.total_savings - profile.monthly_expenses * 6) * (7/10)
          else 0
        primary_strategy := cell.primary
        recommended_products := cell.products
        investment_rationale := rationale }
  | _, _ => none

/-- The engine-produced recommendation record for the Scenario A
profile with category "Conservative": goals mention "retirement" so the
horizon is "7+ Years", savings 300000 exceed the 150000 emergency fund,
monthly income 50000 gives SIP 6250, and the lumpsum suggestion is
`(300000 - 150000) * 0.7 = 105000`. -/
def scenarioARecs : CompRecs :=
  { risk_category := "Conservative"
    time_horizon := "7+ Years"
    lumpsum_available := true
    emergency_fund_needed := 150000
    suggested_sip_amount := 6250
    suggested_lumpsum_amount := 105000
    primary_strategy := "FD + Conservative Hybrid MF (Lumpsum + SIP)"
    recommended_products := [⟨"Conservative Hybrid Mutual Funds", 45⟩, ⟨"ELSS (Tax Saving)", 25⟩,
      ⟨"Fixed Deposits", 20⟩, ⟨"PPF/EPF", 10⟩]
    investment_rationale :=
      "This conservative strategy focuses on capital preservation with minimal risk while your long time horizon enables equity-focused wealth creation. The lumpsum availability enables immediate market participation and SIP for rupee cost averaging." }

/-! ## Report Compiler: the next_steps construction -/

/-- The five fixed generic steps of `generate_risk_report`
(`generate_recommendations/tools.py`, lines 293-299). -/
def fixedNextSteps : List String :=
  ["Review your current investment portfolio compared to the suggested allocation",
   "Consider tax implications before making significant changes",
   "Consult with a financial advisor for personalized advice",
   "Set up automatic contributions to maximize long-term growth",
   "Review and adjust your portfolio 1-2 times per year"]

/-- Rendering of a currency amount in the inserted steps, modelling the
Python format `{x:,.0f}` (round half to even to 0 decimals); the
thousands separators, pure presentation, are not reproduced. -/
def fmtAmount (q : ℚ) : String := toString (pyRound q)

/-- The SIP step inserted at index 0 (line 305). -/
def sipStep (amt : ℚ) : String :=
  "Start a SIP of ₹" ++ fmtAmount amt ++ " per month based on your income"

/-- The lumpsum step inserted at index 1 (line 309). -/
def lumpsumStep (amt : ℚ) : String :=
  "Consider investing ₹" ++ fmtAmount amt ++ " as lumpsum while maintaining emergency fund"

/-- The strategy-focus step inserted at index 2 (line 313). -/
def strategyStep (s : String) : String :=
  "Focus on " ++ s.toLower ++ " as your primary investment strategy"

/-- The `next_steps` construction of `generate_risk_report` (lines
292-315): the five fixed steps, then, when `comprehensive_recommendations`
is present in state (a truthy dict; `none` models absent-or-empty),
`insert(0, sip)` when the SIP amount is positive, `insert(1, lumpsum)`
when the lumpsum amount is positive, and `insert(2, strategy)` when the
primary strategy is non-empty. -/
def build_next_steps (cr : Option CompRecs) : List String :=
  match cr with
  | none => fixedNextSteps
  | some c =>
    let l1 :=
      if 0 < c.suggested_sip_amount then
        fixedNextSteps.insertIdx 0 (sipStep c.suggested_sip_amount)
      else fixedNextSteps
    let l2 :=
      if 0 < c.suggested_lumpsum_amount then
        l1.insertIdx 1 (lumpsumStep c.suggested_lumpsum_amount)
      else l1
    if c.primary_strategy ≠ "" then l2.insertIdx 2 (strategyStep c.primary_strategy) else l2

/-- A recommendation record as the engine produces it when lumpsum is
not available: positive SIP, zero lumpsum, non-empty primary strategy
(the Aggressive short-horizon no-lumpsum cell). -/
def sipOnlyRecs : CompRecs :=
  { risk_category := "Aggressive"
    time_horizon := "< 3 Years"
    lumpsum_available := false
    emergency_fund_needed := 270000
    suggested_sip_amount := 500
    suggested_lumpsum_amount := 0
    primary_strategy := "FD (SIP)"
    recommended_products := [⟨"Monthly FD", 85⟩, ⟨"Liquid Fund SIP", 15⟩]
    investment_rationale := "" }

/-!
# Theorems
-/

/-! ## Claim C2 -/

/-- C2 counterexample: on the Scenario A profile the income factor is
`min(2, max(0, int(50000/25000 - 2))) = int(0) = 0`, not 2, so the
final score is `2 + 2 + 0 + 1 = 5` (category "Moderate"), not 7
("Aggressive") as the claim states. -/
theorem C2_scenarioA_counterexample :
    (calculate_risk_score scenarioAProfile).income_factor = 0 ∧
    (calculate_risk_score scenarioAProfile).risk_score = 5 ∧
    (calculate_risk_score scenarioAProfile).risk_category = "Moderate" ∧
    ¬ (calculate_risk_score scenarioAProfile).risk_score = 7 := by
  refine ⟨?_, ?_, ?_, ?_⟩ <;> with_unfolding_all decide

/-- C2 amended: on the Scenario A profile the Risk Scorer produces
base_score 2, age_factor +2, income_factor 0, savings_factor 1, hence
final_score 5 and risk_category "Moderate". -/
theorem C2_amended_scenarioA :
    base_score_of scenarioAProfile = 2 ∧
    calculate_risk_score scenarioAProfile =
      { risk_score := 5
        risk_category := "Moderate"
        self_described_risk := "conservative"
        age_factor := 2
        income_factor := 0
        savings_factor := 1 } := by
  refine ⟨?_, ?_⟩ <;> with_unfolding_all decide

/-! ## Claim C1 -/

/-- C1 counterexample: the Portfolio Analyzer is not total on malformed
entries.  A list containing one entry whose `amount` value is not
`float`-convertible makes the whole analysis raise (`float` throws, the
batch aborts), and an entry whose `asset_type` is absent but whose
`details` carry a `name` is typed by that name, not "Unknown". -/
theorem C1_malformed_amount_raises :
    run_portfolio_analysis [malformedAmountInv] = none ∧
    resolvedType detailsNamedInv = "Gold" ∧
    run_portfolio_analysis [detailsNamedInv] =
      some (.ok
        { diversity_score := 2
          asset_count := 1
          unique_asset_types := 1
          asset_allocation := [("Gold", 100)]
          risk_concentration := "concentrated in Gold" }) := by
  refine ⟨?_, ?_, ?_⟩ <;> with_unfolding_all decide

lemma resolvePairs_isSome (invs : List Investment)
    (h : ∀ i ∈ invs, (resolvedAmount i).isSome = true) :
    (resolvePairs invs).isSome = true := by
  induction invs with
  | nil => rfl
  | cons i rest ih =>
    have hi := h i (List.mem_cons_self i rest)
    have hrest := ih fun j hj => h j (List.mem_cons_of_mem i hj)
    unfold resolvePairs
    cases hai : resolvedAmount i with
    | none => rw [hai] at hi; exact absurd hi (by simp)
    | some q =>
      cases hrp : resolvePairs rest with
      | none => rw [hrp] at hrest; exact absurd hrest (by simp)
      | some ps => rfl

/-- C1 amended: the Portfolio Analyzer never raises *provided every
present amount value is `float`-convertible*; under that proviso the
whole batch is analyzed.  A malformed (non-convertible) amount raises
and aborts the batch.  An entry with neither an `asset_type` nor any
`details` is typed "Unknown" (a `details` name substitutes when
`asset_type` is absent), a missing amount contributes 0, and a non-dict
entry contributes type "Unknown" and amount 0. -/
theorem C1_amended_malformed_tolerance :
    (∀ invs : List Investment, (∀ i ∈ invs, (resolvedAmount i).isSome = true) →
      (run_portfolio_analysis invs).isSome = true) ∧
    (∀ a : Option AmtVal, resolvedType (.obj none none a) = "Unknown") ∧
    (∀ t : Option String, ∀ nm : Option String, ∀ cv : Option ℚ,
      resolvedAmount (.obj t (some { name := nm, amount := none, current_value := cv }) none)
        = some 0 ∧
      resolvedAmount (.obj t none none) = some 0) ∧
    resolvedType .nonDict = "Unknown" ∧ resolvedAmount .nonDict = some 0 := by
  refine ⟨?_, ?_, ?_, rfl, rfl⟩
  · intro invs h
    unfold run_portfolio_analysis
    cases invs with
    | nil => rfl
    | cons i rest =>
      simp only [List.isEmpty_cons, if_false, Bool.false_eq_true]
      have := resolvePairs_isSome (i :: rest) h
      cases hrp : resolvePairs (i :: rest) with
      | none => rw [hrp] at this; exact absurd this (by simp)
      | some rs => rfl
  · intro a; rfl
  · intro t nm cv; exact ⟨rfl, rfl⟩

/-- C1 witness: a list of well-formed-amount entries (one typed via its
`details` name, one non-dict) is analyzed without raising. -/
theorem C1_amended_malformed_tolerance_witness :
    (resolvedAmount detailsNamedInv).isSome = true ∧
    (resolvedAmount Investment.nonDict).isSome = true ∧
    (run_portfolio_analysis [detailsNamedInv, Investment.nonDict]).isSome = true := by
  refine ⟨by with_unfolding_all decide, by with_unfolding_all decide, ?_⟩
  refine C1_amended_malformed_tolerance.1 [detailsNamedInv, Investment.nonDict] ?_
  intro i hi
  simp only [List.mem_cons, List.not_mem_nil, or_false] at hi
  rcases hi with rfl | rfl
  · exact (by with_unfolding_all decide : (resolvedAmount detailsNamedInv).isSome = true)
  · exact (by with_unfolding_all decide : (resolvedAmount Investment.nonDict).isSome = true)

/-! ## Claim C3 -/

lemma valD_nil (t : String) : valD [] t = 0 := rfl

lemma round2_zero : round2 0 = 0 := by with_unfolding_all decide

lemma valD_updAdd (m : List (String × ℚ)) (k : String) (q : ℚ) (t : String) :
    valD (updAdd m k q) t = valD m t + (if k = t then q else 0) := by
  induction m with
  | nil =>
    by_cases ht : k = t
    · simp [updAdd, valD, alookup, ht]
    · simp [updAdd, valD, alookup, ht]
  | cons p rest ih =>
    obtain ⟨k', v⟩ := p
    by_cases hk : k' = k
    · subst hk
      by_cases ht : k' = t
      · simp [updAdd, valD, alookup, ht]
      · simp [updAdd, valD, alookup, ht]
    · by_cases ht : k' = t
      · subst ht
        have hkt : ¬ k = k' := fun h => hk h.symm
        simp [updAdd, hk, valD, alookup, hkt]
      · simp only [updAdd, if_neg hk, valD, alookup, if_neg ht]
        exact ih

/-- Grouping lemma: after folding the whole resolved list into the
`asset_values` dict, the value at key `t` is the sum of the amounts of
the entries resolved to type `t`. -/
lemma valD_foldl_updAdd (rs : List (String × ℚ)) (m : List (String × ℚ)) (t : String) :
    valD (rs.foldl (fun m p => updAdd m p.1 p.2) m) t = valD m t + sumFor t rs := by
  induction rs generalizing m with
  | nil => simp [sumFor]
  | cons p rest ih =>
    simp only [List.foldl_cons, sumFor]
    rw [ih, valD_updAdd]
    ring

lemma alookup_mapVals (m : List (String × ℚ)) (g : ℚ → ℚ) (t : String) :
    alookup (m.map fun kv => (kv.1, g kv.2)) t = (alookup m t).map g := by
  induction m with
  | nil => rfl
  | cons p rest ih =>
    unfold alookup
    simp only [List.map_cons]
    by_cases h : p.1 = t
    · simp [h]
    · simp [h, ih]

lemma resolvedType_setCV (i : Investment) (cv : Option ℚ) :
    resolvedType (setCV i cv) = resolvedType i := by
  cases i with
  | nonDict => rfl
  | obj t d a => cases d <;> cases t <;> rfl

lemma resolvedAmount_setCV (i : Investment) (cv : Option ℚ) :
    resolvedAmount (setCV i cv) = resolvedAmount i := by
  cases i with
  | nonDict => rfl
  | obj t d a => cases d <;> rfl

lemma resolvePairs_setCV (f : Investment → Option ℚ) (invs : List Investment) :
    resolvePairs (invs.map fun i => setCV i (f i)) = resolvePairs invs := by
  induction invs with
  | nil => rfl
  | cons i rest ih =>
    simp only [List.map_cons]
    unfold resolvePairs
    rw [resolvedAmount_setCV, resolvedType_setCV, ih]

/-- C3 counterexample: for a portfolio of two investments with amounts
50/50 but current values 150/50, the Portfolio Analyzer reports type
"A" at 50% — the percentage of *amount* — whereas a current_value-based
percentage would be `round(150/200*100, 2) = 75`. -/
theorem C3_current_value_counterexample :
    run_portfolio_analysis [cvDiffersA, cvDiffersB] =
      some (.ok
        { diversity_score := 4
          asset_count := 2
          unique_asset_types := 2
          asset_allocation := [("A", 50), ("B", 50)]
          risk_concentration := "balanced" }) ∧
    round2 ((150 : ℚ) / 200 * 100) = 75 ∧ (50 : ℚ) ≠ 75 := by
  refine ⟨?_, ?_, ?_⟩ <;> with_unfolding_all decide

/-- C3 amended: for every investment list whose amounts all resolve
(no exception) and whose resolved total is positive, the allocation map
assigns each asset type `round(100 * (summed resolved amount of that
type) / total, 2)` — the *amount* (nested detail amount preferred over
top-level), not the current value; and the analysis result is invariant
under arbitrary changes of every entry's current_value field. -/
theorem C3_amended_allocation_from_amounts :
    (∀ invs rs t, resolvePairs invs = some rs → invs ≠ [] → 0 < sumAmts rs →
      run_portfolio_analysis invs = some (.ok (analysisOf invs.length rs)) ∧
      valD (analysisOf invs.length rs).asset_allocation t =
        round2 (sumFor t rs / sumAmts rs * 100)) ∧
    (∀ invs (f : Investment → Option ℚ),
      run_portfolio_analysis (invs.map fun i => setCV i (f i)) =
        run_portfolio_analysis invs) := by
  constructor
  · intro invs rs t hrp hne htot
    constructor
    · unfold run_portfolio_analysis
      cases invs with
      | nil => exact absurd rfl hne
      | cons i rest => rw [hrp]; rfl
    · have hval : valD (rs.foldl (fun m p => updAdd m p.1 p.2) []) t = sumFor t rs := by
        rw [valD_foldl_updAdd, valD_nil, zero_add]
      unfold analysisOf
      simp only [if_pos htot]
      unfold valD
      rw [alookup_mapVals _ (fun v => round2 (v / sumAmts rs * 100)) t]
      cases hal : alookup (rs.foldl (fun m p => updAdd m p.1 p.2) []) t with
      | none =>
        have h0 : sumFor t rs = 0 := by rw [← hval]; unfold valD; rw [hal]; rfl
        rw [h0, zero_div, zero_mul]
        exact round2_zero.symm
      | some v =>
        have : sumFor t rs = v := by rw [← hval]; unfold valD; rw [hal]; rfl
        rw [this]
        rfl
  · intro invs f
    unfold run_portfolio_analysis
    have he : (invs.map fun i => setCV i (f i)).isEmpty = invs.isEmpty := by
      cases invs <;> rfl
    rw [he, resolvePairs_setCV, List.length_map]

/-- C3 witness: the amended statement applied to the two-investment
portfolio of the counterexample, at asset type "A". -/
theorem C3_amended_allocation_from_amounts_witness :
    resolvePairs [cvDiffersA, cvDiffersB] = some [("A", 50), ("B", 50)] ∧
    (0 : ℚ) < sumAmts [("A", 50), ("B", 50)] ∧
    valD (analysisOf 2 [("A", 50), ("B", 50)]).asset_allocation "A" =
      round2 (sumFor "A" [("A", 50), ("B", 50)] / sumAmts [("A", 50), ("B", 50)] * 100) := by
  have hrp : resolvePairs [cvDiffersA, cvDiffersB] = some [("A", 50), ("B", 50)] := by
    with_unfolding_all decide
  refine ⟨hrp, by with_unfolding_all decide, ?_⟩
  exact (C3_amended_allocation_from_amounts.1 [cvDiffersA, cvDiffersB] [("A", 50), ("B", 50)]
    "A" hrp (by with_unfolding_all decide) (by with_unfolding_all decide)).2

/-! ## Claim C7 -/

/-- C7: for every profile the Risk Scorer's final score lies in
`[1, 10]` (it is clamped), and whenever the Portfolio Analyzer returns
a result its diversity score lies in `[0, 10]` (0 for the "no_data"
result, `min(10, 2 * unique types)` otherwise). -/
theorem C7_score_and_diversity_bounds :
    (∀ p : Profile, 1 ≤ (calculate_risk_score p).risk_score ∧
      (calculate_risk_score p).risk_score ≤ 10) ∧
    (∀ (invs : List Investment) (r : PAResult), run_portfolio_analysis invs = some r →
      0 ≤ diversityOf r ∧ diversityOf r ≤ 10) := by
  constructor
  · intro p
    exact ⟨le_max_left 1 _, max_le (by norm_num) (min_le_left 10 _)⟩
  · intro invs r h
    refine ⟨Nat.zero_le _, ?_⟩
    unfold run_portfolio_analysis at h
    by_cases he : invs.isEmpty
    · rw [if_pos he] at h
      cases h
      exact Nat.zero_le 10
    · rw [if_neg he] at h
      cases hrp : resolvePairs invs with
      | none => rw [hrp] at h; cases h
      | some rs =>
        rw [hrp] at h
        cases h
        exact min_le_left 10 _

/-- C7 witness: the score part at the Scenario A profile, the diversity
part at the empty investment list (the "no_data" result). -/
theorem C7_score_and_diversity_bounds_witness :
    run_portfolio_analysis [] = some PAResult.noData ∧
    (1 ≤ (calculate_risk_score scenarioAProfile).risk_score ∧
      (calculate_risk_score scenarioAProfile).risk_score ≤ 10) ∧
    (0 ≤ diversityOf PAResult.noData ∧ diversityOf PAResult.noData ≤ 10) :=
  ⟨rfl, C7_score_and_diversity_bounds.1 scenarioAProfile,
    C7_score_and_diversity_bounds.2 [] PAResult.noData rfl⟩

/-! ## Claim C10 -/

/-- C10: invoked on a state where neither `risk_score` nor
`portfolio_analysis` has been committed, `categorize_risk_level` does
not fail: the defaults (score 5, diversity 5, concentration "unknown")
yield category "Moderate", base category "Moderate" and no adjustment
factors, and that result is written to the state under `risk_category`. -/
theorem C10_categorize_defaults :
    categorize_risk_level
        { risk_score := none, portfolio_analysis := none, risk_category := none } =
      ({ risk_score := none, portfolio_analysis := none,
         risk_category := some
           { category := "Moderate", base_category := "Moderate", adjustment_factors := [] } },
       { category := "Moderate", base_category := "Moderate", adjustment_factors := [] }) := by
  with_unfolding_all decide

/-! ## Claim C8 -/

lemma allocSum_ageAdjust (base : Alloc) (age : ℤ) :
    allocSum (ageAdjust base age) = allocSum base := by
  unfold ageAdjust
  split
  · simp only [allocSum]
    ring
  · split
    · simp only [allocSum]
      ring
    · rfl

/-- C8: for each of the three risk categories and every age, the four
`main_allocation` buckets sum to 100 within the ≤ 0.1 tolerance the
spec allows — both age adjustments redistribute the shift exactly, so
the sum is in fact exactly 100. -/
theorem C8_main_allocation_sums_to_100 :
    ∀ (cat : String) (age : ℤ),
      (cat = "Conservative" ∨ cat = "Moderate" ∨ cat = "Aggressive") →
      |allocSum (suggest_asset_allocation cat age).1 - 100| ≤ 1/10 := by
  intro cat age hcat
  have hsum : allocSum (suggest_asset_allocation cat age).1 = 100 := by
    have hstep : allocSum (suggest_asset_allocation cat age).1 =
        allocSum ((baseAllocLookup cat).getD moderateAlloc) :=
      allocSum_ageAdjust ((baseAllocLookup cat).getD moderateAlloc) age
    rw [hstep]
    rcases hcat with rfl | rfl | rfl <;> with_unfolding_all decide
  rw [hsum]
  norm_num

/-- C8 witness: the Conservative category at age 65 (the age > 60
adjustment fires). -/
theorem C8_main_allocation_sums_to_100_witness :
    ("Conservative" = "Conservative" ∨ "Conservative" = "Moderate" ∨
      "Conservative" = "Aggressive") ∧
    |allocSum (suggest_asset_allocation "Conservative" 65).1 - 100| ≤ 1/10 :=
  ⟨Or.inl rfl, C8_main_allocation_sums_to_100 "Conservative" 65 (Or.inl rfl)⟩

/-! ## Claim C5 -/

/-- C5 counterexample: for the out-of-enum category "Bogus" the base
allocation table has no row, yet `suggest_asset_allocation` does not
fail: it silently falls back to the Moderate row (and its equity
breakdown takes the `else` Aggressive fractions), contradicting the
claim that both table lookups are fatal on enum misses. -/
theorem C5_allocation_default_counterexample :
    baseAllocLookup "Bogus" = none ∧
    suggest_asset_allocation "Bogus" 40 =
      ({ equities := 50, fixed_income := 35, cash := 10, alternative_investments := 5 },
       { large_cap := 20, mid_cap := 25/2, small_cap := 15/2, international := 10 }) := by
  refine ⟨?_, ?_⟩ <;> with_unfolding_all decide

/-- C5 amended: only the Decision Matrix Engine lookup is fatal on an
out-of-enum category or horizon (the embedded `KeyError` case `none`);
the Allocation Recommender instead silently substitutes the Moderate
base row, so its `main_allocation` coincides with the one computed for
"Moderate". -/
theorem C5_amended_lookup_policy :
    (∀ (cat hor : String) (l : Bool),
      (¬ (cat = "Conservative" ∨ cat = "Moderate" ∨ cat = "Aggressive") ∨
        ¬ (hor = "< 3 Years" ∨ hor = "3-7 Years" ∨ hor = "7+ Years")) →
      matrixCell cat hor l = none) ∧
    (∀ (cat : String) (age : ℤ),
      ¬ (cat = "Conservative" ∨ cat = "Moderate" ∨ cat = "Aggressive") →
      (suggest_asset_allocation cat age).1 = (suggest_asset_allocation "Moderate" age).1) := by
  constructor
  · intro cat hor l h
    rcases h with h | h
    · push_neg at h
      obtain ⟨h1, h2, h3⟩ := h
      unfold matrixCell
      rw [if_neg h1, if_neg h2, if_neg h3]
    · push_neg at h
      obtain ⟨h1, h2, h3⟩ := h
      unfold matrixCell
      by_cases hc1 : cat = "Conservative"
      · rw [if_pos hc1, if_neg h1, if_neg h2, if_neg h3]
      · rw [if_neg hc1]
        by_cases hc2 : cat = "Moderate"
        · rw [if_pos hc2, if_neg h1, if_neg h2, if_neg h3]
        · rw [if_neg hc2]
          by_cases hc3 : cat = "Aggressive"
          · rw [if_pos hc3, if_neg h1, if_neg h2, if_neg h3]
          · rw [if_neg hc3]
  · intro cat age h
    push_neg at h
    obtain ⟨h1, h2, h3⟩ := h
    have hnone : baseAllocLookup cat = none := by
      unfold baseAllocLookup
      rw [if_neg h1, if_neg h2, if_neg h3]
    show ageAdjust ((baseAllocLookup cat).getD moderateAlloc) age =
      ageAdjust ((baseAllocLookup "Moderate").getD moderateAlloc) age
    rw [hnone]
    rfl

/-- C5 witness: both amended parts at the out-of-enum category "Bogus"
(and, for the matrix, also at an out-of-enum horizon). -/
theorem C5_amended_lookup_policy_witness :
    matrixCell "Bogus" "< 3 Years" true = none ∧
    matrixCell "Conservative" "someday" false = none ∧
    (suggest_asset_allocation "Bogus" 40).1 = (suggest_asset_allocation "Moderate" 40).1 :=
  ⟨C5_amended_lookup_policy.1 "Bogus" "< 3 Years" true (Or.inl (by decide)),
   C5_amended_lookup_policy.1 "Conservative" "someday" false (Or.inr (by decide)),
   C5_amended_lookup_policy.2 "Bogus" 40 (by decide)⟩

/-! ## Claim C6 -/

/-- C6 counterexample: the short-term bucket string returned by
`determine_time_horizon` is "< 3 Years" (with a space), not the
"<3 Years" the claim quotes — on the very input the claim names. -/
theorem C6_bucket_string_counterexample :
    determine_time_horizon "wedding in 2 years" 35 = "< 3 Years" ∧
    "< 3 Years" ≠ "<3 Years" := by
  refine ⟨?_, ?_⟩
  · with_unfolding_all decide
  · decide

/-- C6 amended: for every goals text and age the Horizon Classifier
returns one of "< 3 Years", "3-7 Years", "7+ Years", and goals
containing "wedding in 2 years" yield "< 3 Years" regardless of age
(the short-term keyword check runs first). -/
theorem C6_amended_horizon_buckets :
    (∀ (goals : String) (age : ℤ),
      determine_time_horizon goals age = "< 3 Years" ∨
      determine_time_horizon goals age = "3-7 Years" ∨
      determine_time_horizon goals age = "7+ Years") ∧
    (∀ age : ℤ, determine_time_horizon "wedding in 2 years" age = "< 3 Years") := by
  constructor
  · intro goals age
    unfold determine_time_horizon
    split
    · exact Or.inl rfl
    · split
      · exact Or.inr (Or.inr rfl)
      · split
        · exact Or.inr (Or.inl rfl)
        · exact Or.inr (Or.inl rfl)
  · intro age
    unfold determine_time_horizon
    rw [if_pos]
    with_unfolding_all decide

/-! ## Claim C9 -/

/-- C9: whenever the Decision Matrix Engine returns, its record has
`emergency_fund_needed = monthly_expenses * 6`, `lumpsum_available` is
true exactly when total savings exceed that fund, the lumpsum
suggestion is `max(0, savings - fund) * 0.7` when available and 0
otherwise, hence never negative and zero whenever `lumpsum_available`
is false. -/
theorem C9_lumpsum_policy :
    ∀ (p : Profile) (cat : String) (r : CompRecs),
      get_comprehensive_investment_recommendations p cat = some r →
      r.emergency_fund_needed = p.monthly_expenses * 6 ∧
      (r.lumpsum_available = true ↔ p.monthly_expenses * 6 < p.total_savings) ∧
      r.suggested_lumpsum_amount =
        (if p.monthly_expenses * 6 < p.total_savings then
          max 0 (p.total_savings - p.monthly_expenses * 6) * (7/10)
        else 0) ∧
      0 ≤ r.suggested_lumpsum_amount ∧
      (r.lumpsum_available = false → r.suggested_lumpsum_amount = 0) := by
  intro p cat r h
  unfold get_comprehensive_investment_recommendations at h
  cases hmc : matrixCell cat (determine_time_horizon p.financial_goals p.age)
      (decide (p.monthly_expenses * 6 < p.total_savings)) with
  | none => rw [hmc] at h; cases h
  | some cell =>
    rw [hmc] at h
    cases hir : get_investment_rationale cat (determine_time_horizon p.financial_goals p.age)
        (decide (p.monthly_expenses * 6 < p.total_savings)) with
    | none => rw [hir] at h; cases h
    | some rationale =>
      rw [hir] at h
      cases h
      refine ⟨rfl, by simp, rfl, ?_, ?_⟩
      · show 0 ≤ (if p.monthly_expenses * 6 < p.total_savings then
          max 0 (p.total_savings - p.monthly_expenses * 6) * (7/10) else 0)
        split
        · exact mul_nonneg (le_max_left 0 _) (by norm_num)
        · exact le_refl 0
      · intro hf
        simp only [decide_eq_false_iff_not] at hf
        show (if p.monthly_expenses * 6 < p.total_savings then
          max 0 (p.total_savings - p.monthly_expenses * 6) * (7/10) else 0) = 0
        rw [if_neg hf]

set_option maxRecDepth 8000 in
/-- C9 witness: the Scenario C numbers of the spec — expenses 25000 give
an emergency fund of 150000, savings 300000 make lumpsum available, and
the suggestion is (300000 - 150000) * 0.7 = 105000. -/
theorem C9_lumpsum_policy_witness :
    get_comprehensive_investment_recommendations scenarioAProfile "Conservative" =
      some scenarioARecs ∧
    scenarioARecs.emergency_fund_needed = 150000 ∧
    scenarioARecs.lumpsum_available = true ∧
    scenarioARecs.suggested_lumpsum_amount = 105000 ∧
    0 ≤ scenarioARecs.suggested_lumpsum_amount := by
  have hth : determine_time_horizon scenarioAProfile.financial_goals scenarioAProfile.age =
      "7+ Years" := by
    with_unfolding_all decide
  have hdec : decide (scenarioAProfile.monthly_expenses * 6 < scenarioAProfile.total_savings)
      = true := by
    with_unfolding_all decide
  have hmc : matrixCell "Conservative" "7+ Years" true =
      some
        { primary := "FD + Conservative Hybrid MF (Lumpsum + SIP)"
          products := [⟨"Conservative Hybrid Mutual Funds", 45⟩, ⟨"ELSS (Tax Saving)", 25⟩,
            ⟨"Fixed Deposits", 20⟩, ⟨"PPF/EPF", 10⟩] } := by
    with_unfolding_all decide
  have hir : get_investment_rationale "Conservative" "7+ Years" true =
      some scenarioARecs.investment_rationale := by
    with_unfolding_all decide
  have h600 : ¬ scenarioAProfile.annual_income = 0 := by
    show ¬ (600000 : ℚ) = 0
    norm_num
  have h : get_comprehensive_investment_recommendations scenarioAProfile "Conservative" =
      some scenarioARecs := by
    unfold get_comprehensive_investment_recommendations
    rw [hth, hdec, hmc, hir]
    refine congrArg some ?_
    unfold scenarioARecs
    rw [CompRecs.mk.injEq]
    refine ⟨rfl, rfl, rfl, ?_, ?_, ?_, rfl, rfl, rfl⟩
    · show (25000 : ℚ) * 6 = 150000
      norm_num
    · rw [if_neg h600]
      rw [if_pos (show (0 : ℚ) < scenarioAProfile.annual_income / 12 by
        show (0 : ℚ) < 600000 / 12
        norm_num)]
      show (600000 : ℚ) / 12 * (125/1000) = 6250
      norm_num
    · rw [if_pos (show scenarioAProfile.monthly_expenses * 6 < scenarioAProfile.total_savings by
        show (25000 : ℚ) * 6 < 300000
        norm_num)]
      show max 0 ((300000 : ℚ) - 25000 * 6) * (7/10) = 105000
      rw [max_eq_right (by norm_num : (0 : ℚ) ≤ 300000 - 25000 * 6)]
      norm_num
  refine ⟨h, rfl, rfl, rfl, ?_⟩
  exact (C9_lumpsum_policy scenarioAProfile "Conservative" scenarioARecs h).2.2.2.1

/-! ## Claim C4 -/

/-- C4 counterexample: a present recommendation record with positive
SIP, zero lumpsum and a non-empty strategy — exactly what the engine
produces when lumpsum is unavailable — puts the strategy step at index
2, *behind* the first fixed step, contradicting the claim that every
inserted item precedes all five fixed steps. -/
theorem C4_insertion_order_counterexample :
    build_next_steps (some sipOnlyRecs) =
      [sipStep 500,
       "Review your current investment portfolio compared to the suggested allocation",
       strategyStep "FD (SIP)",
       "Consider tax implications before making significant changes",
       "Consult with a financial advisor for personalized advice",
       "Set up automatic contributions to maximize long-term growth",
       "Review and adjust your portfolio 1-2 times per year"] ∧
    (build_next_steps (some sipOnlyRecs)).get? 1 =
      some "Review your current investment portfolio compared to the suggested allocation" ∧
    (build_next_steps (some sipOnlyRecs)).get? 2 = some (strategyStep "FD (SIP)") ∧
    strategyStep "FD (SIP)" ≠
      "Review your current investment portfolio compared to the suggested allocation" := by
  refine ⟨?_, ?_, ?_, ?_⟩ <;> with_unfolding_all decide

/-- C4 amended: the three insertions go to the fixed indices 0, 1 and 2
(SIP when its amount is positive, lumpsum when its amount is positive,
strategy focus when the primary strategy is non-empty); when all three
conditions hold the inserted items do precede all five fixed steps in
the order SIP, lumpsum, strategy, but when an earlier insertion is
skipped a later one lands behind leading fixed steps. -/
theorem C4_amended_next_steps :
    ∀ c : CompRecs, 0 < c.suggested_sip_amount → 0 < c.suggested_lumpsum_amount →
      c.primary_strategy ≠ "" →
      build_next_steps (some c) =
        sipStep c.suggested_sip_amount :: lumpsumStep c.suggested_lumpsum_amount ::
          strategyStep c.primary_strategy :: fixedNextSteps := by
  intro c h1 h2 h3
  simp only [build_next_steps]
  rw [if_pos h1, if_pos h2, if_pos h3]
  rfl

/-- C4 witness: the Scenario A record (SIP 6250, lumpsum 105000,
non-empty strategy) gets all three steps in front of the fixed five. -/
theorem C4_amended_next_steps_witness :
    0 < scenarioARecs.suggested_sip_amount ∧
    0 < scenarioARecs.suggested_lumpsum_amount ∧
    scenarioARecs.primary_strategy ≠ "" ∧
    build_next_steps (some scenarioARecs) =
      sipStep scenarioARecs.suggested_sip_amount ::
        lumpsumStep scenarioARecs.suggested_lumpsum_amount ::
          strategyStep scenarioARecs.primary_strategy :: fixedNextSteps := by
  refine ⟨by with_unfolding_all decide, by with_unfolding_all decide, by decide, ?_⟩
  exact C4_amended_next_steps scenarioARecs (by with_unfolding_all decide)
    (by with_unfolding_all decide) (by decide)
